import Mathlib

/-!
Shallow embedding of the ridebot Telegram booking Lambda
(`lambda_src/app.py`) together with proofs about its specified behaviour.

Conventions:
* Python floats are modelled as rationals (`ℚ`); `round(x, 2)` is modelled
  as round-half-to-even on the value scaled by 100 (Python's `round` uses
  banker's rounding).
* DynamoDB items are modelled as Lean structures; the table is a pair of
  partial maps keyed the way the code keys its items
  (`TRIP#<id>/META` and `USER#<uid>/TRIP#<id>`).
* Each `boto3` call is one atomic step; `update_item` on a present item
  rewrites the named attributes.  (On an absent `META` item `update_item`
  would create a sparse record; no code path exercised by the claims does
  that, and the embedding leaves an absent record absent.)
-/

namespace RideBot

/-! ## Rounding to two decimals (Python `round(x, 2)`) -/

/-- Round a rational to the nearest integer, ties to even
(the rule Python's builtin `round` follows). -/
def roundHalfEven (q : ℚ) : ℤ :=
  if q - ⌊q⌋ < 1/2 then ⌊q⌋
  else if 1/2 < q - ⌊q⌋ then ⌊q⌋ + 1
  else if ⌊q⌋ % 2 = 0 then ⌊q⌋ else ⌊q⌋ + 1

/-- Python's `round(x, 2)`: scale by 100, round half to even, scale back. -/
def round2 (q : ℚ) : ℚ := (roundHalfEven (q * 100) : ℚ) / 100

theorem floorq (x : ℚ) (n : ℤ) (h1 : (n : ℚ) ≤ x) (h2 : x < n + 1) : ⌊x⌋ = n :=
  Int.floor_eq_iff.mpr ⟨h1, h2⟩

theorem floor_le_roundHalfEven (q : ℚ) : ⌊q⌋ ≤ roundHalfEven q := by
  unfold roundHalfEven
  split_ifs <;> omega

theorem round2_ge_of_cents (k : ℤ) (x : ℚ) (h : (k : ℚ)/100 ≤ x) :
    (k : ℚ)/100 ≤ round2 x := by
  unfold round2
  have h1 : (k : ℚ) ≤ x * 100 := by linarith
  have h2 : k ≤ ⌊x * 100⌋ := Int.le_floor.mpr h1
  have h3 : k ≤ roundHalfEven (x * 100) := le_trans h2 (floor_le_roundHalfEven _)
  have h4 : (k : ℚ) ≤ (roundHalfEven (x * 100) : ℚ) := by exact_mod_cast h3
  linarith

/-! ## Fare calculator (`calc_fare`, app.py lines 413-425)

The five fare constants and the short-trip threshold are environment
configuration (`FARE_BASE`, `FARE_PER_MILE`, `FARE_PER_MIN`, `FARE_FEE`,
`FARE_MINIMUM`, `SHORT_TRIP_MILES_THRESHOLD`, `SHORT_TRIP_MINIMUM`). -/

structure FareCfg where
  fare_base : ℚ
  fare_per_mile : ℚ
  fare_per_min : ℚ
  fare_fee : ℚ
  fare_minimum : ℚ
  short_trip_miles_threshold : ℚ
  short_trip_minimum : ℚ
deriving DecidableEq

/-- The documented default configuration (app.py lines 53-62). -/
def defaultCfg : FareCfg :=
  { fare_base := 3
    fare_per_mile := 5/2
    fare_per_min := 2/5
    fare_fee := 1
    fare_minimum := 8
    short_trip_miles_threshold := 5
    short_trip_minimum := 10 }

/-- `calc_fare(miles, minutes)`: base + per-mile + per-minute + fee,
floored by `FARE_MINIMUM`, additionally floored by `SHORT_TRIP_MINIMUM`
when `miles < SHORT_TRIP_MILES_THRESHOLD`, then rounded to 2 decimals. -/
def calc_fare (cfg : FareCfg) (miles minutes : ℚ) : ℚ :=
  let fare := cfg.fare_base + miles * cfg.fare_per_mile + minutes * cfg.fare_per_min + cfg.fare_fee
  let fare2 := max fare cfg.fare_minimum
  let fare3 := if miles < cfg.short_trip_miles_threshold
               then max fare2 cfg.short_trip_minimum else fare2
  round2 fare3

/-- A configuration whose minimum is not a whole number of cents
(0.004 dollars); every fare rate is zero. -/
def cheapCfg : FareCfg :=
  { fare_base := 0
    fare_per_mile := 0
    fare_per_min := 0
    fare_fee := 0
    fare_minimum := 1/250
    short_trip_miles_threshold := 5
    short_trip_minimum := 0 }

/-! ## Time rounding (`round_to_15m`, app.py lines 134-144)

A Python `datetime` under wall-clock arithmetic (`.replace` and
`+ timedelta(hours=1)` on an aware datetime operate on the wall clock):
`hour` counts whole hours since an arbitrary epoch, absorbing the date. -/

structure DT where
  hour : ℕ
  minute : ℕ
  second : ℕ
  micro : ℕ
deriving DecidableEq

/-- `round_to_15m`: round the minute up to the next multiple of 15; on
overflow to 60 zero the minute and advance one hour; always zero the
seconds and microseconds. -/
def round_to_15m (dt : DT) : DT :=
  let minutes := (dt.minute + 14) / 15 * 15
  if minutes = 60 then
    { hour := dt.hour + 1, minute := 0, second := 0, micro := 0 }
  else
    { dt with minute := minutes, second := 0, micro := 0 }

/-! ## Phone normalization (`normalize_phone`, app.py lines 157-174) -/

/-- The strip step `re.sub(r"[^\d+]", "", text.strip())`: keep only ASCII
digits and plus signs (leading/trailing whitespace removal is subsumed). -/
def keepPhoneChars (s : List Char) : List Char :=
  s.filter (fun c => c.isDigit || c == '+')

/-- `re.sub(r"\D", "", digits)`: keep only the digits. -/
def keepDigits (s : List Char) : List Char :=
  s.filter Char.isDigit

def allDigits (s : List Char) : Bool := s.all Char.isDigit

/-- `digits.startswith("+") and re.fullmatch(r"\+\d{8,15}", digits)`. -/
def plusForm : List Char → Bool
  | '+' :: rest => allDigits rest && decide (8 ≤ rest.length) && decide (rest.length ≤ 15)
  | _ => false

/-- `re.fullmatch(r"1\d{10}", only)`. -/
def oneThenTen : List Char → Bool
  | '1' :: rest => allDigits rest && decide (rest.length = 10)
  | _ => false

/-- `normalize_phone` transcribed from the source: empty input is rejected
(`if not text`); otherwise strip, accept `+<8..15 digits>` verbatim, else
reduce to digits only and accept exactly 10 digits with a `+1` prefix or
`1` + 10 digits with a `+` prefix; otherwise reject. -/
def normalize_phone (s : List Char) : Option (List Char) :=
  if s.isEmpty then none
  else
    let digits := keepPhoneChars s
    if plusForm digits then some digits
    else
      let only := keepDigits digits
      if allDigits only && decide (only.length = 10) then some ('+' :: '1' :: only)
      else if oneThenTen only then some ('+' :: only)
      else none

/-- Modelled from the claim wording (for comparison with the source): after
stripping non-digit/non-plus characters, accept `+` followed by 8..15
digits verbatim; accept a bare 10-digit string (digits only) by prefixing
`+1`; accept a bare 11-digit string beginning with `1` by prefixing `+`;
reject everything else. -/
def claimed_normalize_phone (s : List Char) : Option (List Char) :=
  let digits := keepPhoneChars s
  if plusForm digits then some digits
  else if allDigits digits && decide (digits.length = 10) then some ('+' :: '1' :: digits)
  else if allDigits digits && decide (digits.length = 11) && decide (digits.head? = some '1')
    then some ('+' :: digits)
  else none

/-- The claim amended: the 10- and 11-digit rules apply to the digit-only
reduction of the stripped string (stray `+` signs beyond a valid leading
one are discarded rather than causing rejection), and empty input is
rejected outright. -/
def amended_normalize_phone (s : List Char) : Option (List Char) :=
  if s.isEmpty then none
  else
    let digits := keepPhoneChars s
    let only := keepDigits digits
    if plusForm digits then some digits
    else if allDigits only && decide (only.length = 10) then some ('+' :: '1' :: only)
    else if oneThenTen only then some ('+' :: only)
    else none

/-! ## Time-slot buttons (`build_time_buttons`, app.py lines 317-335)

Wall-clock times are minutes since an arbitrary midnight-aligned epoch.
`ofs` models the zone's UTC offset in minutes as a function of the wall
time (`fold=0` zoneinfo lookup), so an aware datetime's
`int(.timestamp())` is `(w - ofs w) * 60` epoch seconds, and comparison
of two aware datetimes compares those instants. -/

inductive TimeButton where
  | slot (epoch : ℤ)
  | noTimes
deriving DecidableEq

/-- The `while cur <= end` loop: emit one slot per iteration and advance
`cur` by 30 wall minutes.  The source loop terminates because the real
offset function is bounded; `fuel` is the standard termination device and
is chosen far larger than the number of iterations the loop can make on a
bounded-offset day. -/
def slotLoop (ofs : ℤ → ℤ) (endEpoch : ℤ) : ℕ → ℤ → List ℤ
  | 0, _ => []
  | fuel + 1, w =>
    if w - ofs w ≤ endEpoch then ((w - ofs w) * 60) :: slotLoop ofs endEpoch fuel (w + 30)
    else []

/-- `build_time_buttons`: slots from 6:00 to 23:59 wall time of the day
beginning at `dayStart` (minutes), in 30-minute steps; if no slot was
generated a single placeholder button is emitted instead. -/
def build_time_buttons (ofs : ℤ → ℤ) (dayStart : ℤ) : List TimeButton :=
  let start := dayStart + 360       -- datetime(y, m, d, 6, 0): wall minute 360
  let endw := dayStart + 1439       -- datetime(y, m, d, 23, 59): wall minute 1439
  let rows := slotLoop ofs (endw - ofs endw) 1000 start
  if rows = [] then [TimeButton.noTimes] else rows.map TimeButton.slot

/-- The epoch seconds attached to the slot buttons of a button list. -/
def epochsOf (bs : List TimeButton) : List ℤ :=
  bs.filterMap (fun b => match b with | TimeButton.slot e => some e | TimeButton.noTimes => none)

/-! ## Trip lifecycle: statuses, records, store -/

inductive Status where
  | await_when
  | pending
  | accepted
  | declined
deriving DecidableEq

/-- The `TRIP#<id>/META` item, restricted to the attributes the handlers
read or write.  `Option` fields model attributes that may be absent
(Python `meta.get(...)` returning a falsy value). -/
structure TripMeta where
  user_id : String
  user_chat_id : String
  status : Status
  desired_time_text : Option String
  passenger_phone : Option String
  driver_id : Option String
  driver_name : Option String
  driver_car : Option String
deriving DecidableEq

/-- The DynamoDB table: `meta t` is the `TRIP#<t>/META` item,
`userTripStatus u t` the status attribute of `USER#<u>/TRIP#<t>`, and
`session u` the `USER#<u>/SESSION` item (never touched by the driver
branches). -/
structure Store where
  meta : String → Option TripMeta
  userTripStatus : String → String → Option Status
  session : String → Option String

/-- First `update_item` of `set_trip_status` (app.py lines 576-581):
rewrite the status attribute of `TRIP#<tid>/META`. -/
def updateMetaStatus (s : Store) (tid : String) (st : Status) : Store :=
  { s with meta := fun t => if t = tid then (s.meta t).map (fun m => { m with status := st })
                            else s.meta t }

/-- Second `update_item` of `set_trip_status` (app.py lines 582-587):
rewrite (or create) the status attribute of `USER#<uid>/TRIP#<tid>`. -/
def updateUserTripStatus (s : Store) (uid tid : String) (st : Status) : Store :=
  { s with userTripStatus := fun u t => if u = uid ∧ t = tid then some st
                                        else s.userTripStatus u t }

/-- `set_trip_status`: two independent writes, META first. -/
def set_trip_status (s : Store) (tid uid : String) (st : Status) : Store :=
  updateUserTripStatus (updateMetaStatus s tid st) uid tid st

/-- `set_trip_driver` (app.py lines 590-597): attach driver id/name/car
to `TRIP#<tid>/META`. -/
def set_trip_driver (s : Store) (tid did dname dcar : String) : Store :=
  { s with meta := fun t =>
      if t = tid then
        (s.meta t).map (fun m =>
          { m with driver_id := some did, driver_name := some dname, driver_car := some dcar })
      else s.meta t }

/-- Outbound side effects of the callback handlers, tagged by kind. -/
inductive Action where
  | sendStartAgain
  | editAlreadyStatus (tid : String) (st : Status)
  | promptPickTime
  | promptPhone
  | editConfirmSent (tid : String)
  | fanout (tid : String)
  | editNotFound (tid : String)
  | editAlreadyAccepted (tid byName : String)
  | editAccepted (tid : String)
  | notifyPassengerAccepted (tid dname dcar : String)
  | notifyClientDone (tid : String)
  | editDeclined (tid : String)
  | notifyPassengerDeclined (tid : String)
deriving DecidableEq

/-- Every handler path returns the same HTTP-style success response. -/
inductive Resp where
  | ok
deriving DecidableEq

structure HOut where
  store : Store
  actions : List Action
  resp : Resp

/-- The `confirm:` branch of `lambda_handler` (app.py lines 872-930):
missing META → error message; status already pending/accepted/declined →
informational edit only; missing desired time or phone → prompt; else set
status pending on both records, edit the confirmation message, and fan
the request out to all drivers. -/
def handleConfirm (tid : String) (s : Store) : HOut :=
  match s.meta tid with
  | none => ⟨s, [Action.sendStartAgain], Resp.ok⟩
  | some m =>
    if m.status = Status.pending ∨ m.status = Status.accepted ∨ m.status = Status.declined then
      ⟨s, [Action.editAlreadyStatus tid m.status], Resp.ok⟩
    else if m.desired_time_text = none then ⟨s, [Action.promptPickTime], Resp.ok⟩
    else if m.passenger_phone = none then ⟨s, [Action.promptPhone], Resp.ok⟩
    else
      ⟨set_trip_status s tid m.user_id Status.pending,
       [Action.editConfirmSent tid, Action.fanout tid], Resp.ok⟩

/-- The `accept:` branch of `lambda_handler` (app.py lines 933-976):
missing META → "not found" edit only; status already accepted →
informational edit only; else look up the driver profile, attach the
driver to META, set status accepted on both records, and notify. -/
def handleAccept (profiles : String → Option (String × String)) (tid drv : String)
    (s : Store) : HOut :=
  match s.meta tid with
  | none => ⟨s, [Action.editNotFound tid], Resp.ok⟩
  | some m =>
    if m.status = Status.accepted then
      ⟨s, [Action.editAlreadyAccepted tid (m.driver_name.getD "another driver")], Resp.ok⟩
    else
      let dname := ((profiles drv).map Prod.fst).getD "Driver"
      let dcar := ((profiles drv).map Prod.snd).getD "Car"
      let s1 := set_trip_driver s tid drv dname dcar
      let s2 := set_trip_status s1 tid m.user_id Status.accepted
      ⟨s2, [Action.editAccepted tid, Action.notifyPassengerAccepted tid dname dcar,
            Action.notifyClientDone tid], Resp.ok⟩

/-- The `decline:` branch of `lambda_handler` (app.py lines 979-998):
always edit the declining driver's own message; only when META exists and
status is still pending, set status declined and notify the passenger. -/
def handleDecline (tid drv : String) (s : Store) : HOut :=
  match s.meta tid with
  | some m =>
    if m.status = Status.pending then
      ⟨set_trip_status s tid m.user_id Status.declined,
       [Action.editDeclined tid, Action.notifyPassengerDeclined tid], Resp.ok⟩
    else ⟨s, [Action.editDeclined tid], Resp.ok⟩
  | none => ⟨s, [Action.editDeclined tid], Resp.ok⟩

/-- The trip-lifecycle events of the claims. -/
inductive Ev where
  | confirm (tid : String)
  | accept (tid drv : String)
  | decline (tid drv : String)

def handleEv (profiles : String → Option (String × String)) (e : Ev) (s : Store) : Store :=
  match e with
  | Ev.confirm t => (handleConfirm t s).store
  | Ev.accept t d => (handleAccept profiles t d s).store
  | Ev.decline t d => (handleDecline t d s).store

def runEvents (profiles : String → Option (String × String)) (evs : List Ev) (s : Store) :
    Store :=
  evs.foldl (fun s e => handleEv profiles e s) s

def fanoutCount (o : HOut) : ℕ :=
  o.actions.countP (fun a => match a with | Action.fanout _ => true | _ => false)

/-! ## Fine-grained accept (for the two-driver race)

Each DynamoDB call of the `accept:` branch is one atomic step:
(0) `get_trip_meta`, (1) `set_trip_driver`, (2) the META write of
`set_trip_status`, (3) the user-record write of `set_trip_status`;
pc 4 means the invocation has finished. -/

structure AProc where
  pc : ℕ
  readRes : Option (Option TripMeta)
  sawTaken : Bool
  sawMissing : Bool
  wrote : Bool
deriving DecidableEq

def initProc : AProc := ⟨0, none, false, false, false⟩

/-- One atomic step of an `accept:` invocation for driver `drv`. -/
def acceptStep (profiles : String → Option (String × String)) (tid drv : String)
    (p : AProc) (s : Store) : AProc × Store :=
  if p.pc = 0 then
    match s.meta tid with
    | none => (⟨4, some none, false, true, p.wrote⟩, s)
    | some m =>
      if m.status = Status.accepted then (⟨4, some (some m), true, false, p.wrote⟩, s)
      else (⟨1, some (some m), false, false, p.wrote⟩, s)
  else if p.pc = 1 then
    let dname := ((profiles drv).map Prod.fst).getD "Driver"
    let dcar := ((profiles drv).map Prod.snd).getD "Car"
    (⟨2, p.readRes, p.sawTaken, p.sawMissing, true⟩, set_trip_driver s tid drv dname dcar)
  else if p.pc = 2 then
    (⟨3, p.readRes, p.sawTaken, p.sawMissing, true⟩, updateMetaStatus s tid Status.accepted)
  else if p.pc = 3 then
    match p.readRes with
    | some (some m) =>
      (⟨4, p.readRes, p.sawTaken, p.sawMissing, true⟩,
       updateUserTripStatus s m.user_id tid Status.accepted)
    | _ => (⟨4, p.readRes, p.sawTaken, p.sawMissing, p.wrote⟩, s)
  else (p, s)

/-- Run two concurrent `accept:` invocations (drivers `d1`, `d2`) under a
schedule: `true` steps the first invocation, `false` the second. -/
def runSched (profiles : String → Option (String × String)) (tid d1 d2 : String) :
    List Bool → AProc × AProc × Store → AProc × AProc × Store
  | [], st => st
  | b :: rest, (p1, p2, s) =>
    if b then
      let r := acceptStep profiles tid d1 p1 s
      runSched profiles tid d1 d2 rest (r.1, p2, r.2)
    else
      let r := acceptStep profiles tid d2 p2 s
      runSched profiles tid d1 d2 rest (p1, r.1, r.2)

/-! ## Trip creation from the `await_dropoff` branch (app.py lines 768-793) -/

structure GeoPoint where
  label : String
  lon : ℚ
  lat : ℚ
deriving DecidableEq

inductive DropoffResult where
  | errPickup
  | errDropoff
  | errRoute
  | created (miles minutes fare : ℚ) (status : Status)
deriving DecidableEq

/-- The `await_dropoff` branch after both geocode calls: on a missing
geocode result report the specific error; on a failed route
(`calc_route` returned nothing, or a falsy zero distance/duration)
report the route error; otherwise `miles = distance_m / 1609.34`,
`minutes = duration_s / 60.0`, the fare is `calc_fare` at the default
configuration, and `save_trip` stores the trip with status
`await_when` on both records. -/
def handle_await_dropoff (dep dest : Option GeoPoint) (route : Option (ℕ × ℕ)) :
    DropoffResult :=
  match dep with
  | none => DropoffResult.errPickup
  | some _ =>
    match dest with
    | none => DropoffResult.errDropoff
    | some _ =>
      match route with
      | none => DropoffResult.errRoute
      | some (dm, ds) =>
        if dm = 0 ∨ ds = 0 then DropoffResult.errRoute
        else
          let miles : ℚ := (dm : ℚ) / (160934/100)
          let minutes : ℚ := (ds : ℚ) / 60
          let fare := calc_fare defaultCfg miles minutes
          DropoffResult.created miles minutes fare Status.await_when

def createdFare : DropoffResult → Option ℚ
  | DropoffResult.created _ _ f _ => some f
  | _ => none

/-! ## Listing recent trips (`list_recent_trips`, app.py lines 606-634)

The DynamoDB `query` on partition `USER#<uid>` with sort-key prefix
`TRIP#` returns items ordered by the sort key `TRIP#<trip_id>`;
`ScanIndexForward=False` makes the order descending and `Limit=5`
truncates to the first five.  The sort key therefore orders by the
random 6-character `trip_id`, not by `created_at`. -/

structure UserTrip where
  trip_id : String
  created_at : ℕ
deriving DecidableEq

/-- DynamoDB orders the items of one partition by the bytes of the sort
key; the trip sort keys share the prefix `TRIP#`, so the order reduces to
the byte order of the random trip id (plain ASCII here). -/
def skLt : List Char → List Char → Bool
  | [], [] => false
  | [], _ :: _ => true
  | _ :: _, [] => false
  | a :: as, b :: bs =>
    if a.toNat < b.toNat then true
    else if b.toNat < a.toNat then false
    else skLt as bs

def insertByTidDesc (x : UserTrip) : List UserTrip → List UserTrip
  | [] => [x]
  | y :: ys =>
    if skLt y.trip_id.data x.trip_id.data then x :: y :: ys else y :: insertByTidDesc x ys

def sortByTidDesc (l : List UserTrip) : List UserTrip := l.foldr insertByTidDesc []

/-- The records rendered by `list_recent_trips`: the user's trip items in
descending sort-key (trip id) order, truncated to five. -/
def list_recent_trips (trips : List UserTrip) : List UserTrip :=
  (sortByTidDesc trips).take 5

/-! ## Theorems -/

/-- C7: `round_to_15m` is idempotent — applying it twice yields the same
result as applying it once — and its output's minute component is always
0, 15, 30, or 45 (for any datetime, whose minute is below 60). -/
theorem c7_round_to_15m_idempotent (dt : DT) (h : dt.minute < 60) :
    round_to_15m (round_to_15m dt) = round_to_15m dt ∧
    ((round_to_15m dt).minute = 0 ∨ (round_to_15m dt).minute = 15 ∨
     (round_to_15m dt).minute = 30 ∨ (round_to_15m dt).minute = 45) := by
  obtain ⟨hh, m, s, u⟩ := dt
  have hm : m < 60 := h
  by_cases h60 : (m + 14) / 15 * 15 = 60
  · constructor
    · simp [round_to_15m, h60]
    · simp [round_to_15m, h60]
  · have hk : (m + 14) / 15 * 15 = 0 ∨ (m + 14) / 15 * 15 = 15 ∨
        (m + 14) / 15 * 15 = 30 ∨ (m + 14) / 15 * 15 = 45 := by omega
    have hfix : ((m + 14) / 15 * 15 + 14) / 15 * 15 = (m + 14) / 15 * 15 := by omega
    constructor
    · simp [round_to_15m, h60, hfix]
    · simp only [round_to_15m, if_neg h60]
      exact hk

theorem c7_witness :
    (DT.mk 10 37 12 5).minute < 60 ∧
    (round_to_15m (round_to_15m ⟨10, 37, 12, 5⟩) = round_to_15m ⟨10, 37, 12, 5⟩ ∧
     ((round_to_15m ⟨10, 37, 12, 5⟩).minute = 0 ∨ (round_to_15m ⟨10, 37, 12, 5⟩).minute = 15 ∨
      (round_to_15m ⟨10, 37, 12, 5⟩).minute = 30 ∨
      (round_to_15m ⟨10, 37, 12, 5⟩).minute = 45)) :=
  ⟨by decide, c7_round_to_15m_idempotent ⟨10, 37, 12, 5⟩ (by decide)⟩

/-- C8 counterexample: on `"85+05551234"` (a stray plus inside ten
digits) the source accepts and returns `"+18505551234"`, whereas the
claim's description — which only accepts a *bare* 10-digit string after
stripping — rejects it. -/
theorem c8_counterexample :
    normalize_phone ("85+05551234".toList) = some ("+18505551234".toList) ∧
    claimed_normalize_phone ("85+05551234".toList) = none := by
  decide

/-- C8 amended: `normalize_phone` strips non-digit/non-plus characters,
accepts `+<8..15 digits>` verbatim, and applies the 10-digit (`+1` prefix)
and 11-digit-leading-1 (`+` prefix) rules to the digit-only reduction of
the stripped string, rejecting everything else; in particular
`"850-555-1234" → "+18505551234"`, `"+1 850 555 1234" → "+18505551234"`,
and `"123"` is rejected. -/
theorem c8_normalize_phone_spec :
    (∀ s : List Char, normalize_phone s = amended_normalize_phone s) ∧
    normalize_phone ("850-555-1234".toList) = some ("+18505551234".toList) ∧
    normalize_phone ("+1 850 555 1234".toList) = some ("+18505551234".toList) ∧
    normalize_phone ("123".toList) = none :=
  ⟨fun _ => rfl, by decide, by decide, by decide⟩

/-- C4 counterexample: with every rate zero and a configured minimum of
0.004 (not a whole number of cents), `calc_fare 0 0` rounds to 0.00,
strictly below the configured minimum — so the claim's floor guarantee
fails for some configurations. -/
theorem c4_counterexample :
    calc_fare cheapCfg 0 0 = 0 ∧ calc_fare cheapCfg 0 0 < cheapCfg.fare_minimum := by
  have h0 : calc_fare cheapCfg 0 0 = 0 := by
    simp only [calc_fare, cheapCfg]
    rw [if_pos (by norm_num : (0 : ℚ) < 5)]
    rw [max_eq_right (by norm_num : (0 : ℚ) + 0 * 0 + 0 * 0 + 0 ≤ 1/250)]
    rw [max_eq_left (by norm_num : (0 : ℚ) ≤ 1/250)]
    unfold round2 roundHalfEven
    rw [floorq ((1/250 : ℚ) * 100) 0 (by norm_num) (by norm_num)]
    rw [if_pos (by norm_num)]
    norm_num
  refine ⟨h0, ?_⟩
  rw [h0]
  norm_num [cheapCfg]

/-- C4 amended: for every configuration and all miles/minutes, whenever
the configured minimum (resp. short-trip minimum) is a whole number of
cents, the fare is at least that minimum (resp., when miles is below the
short-trip threshold, at least the short-trip minimum); and the result is
exactly the formula base + miles·per_mile + minutes·per_minute + fee
raised to those floors and rounded to two decimals. -/
theorem c4_fare_floors (cfg : FareCfg) (miles minutes : ℚ) (k j : ℤ)
    (hk : cfg.fare_minimum = (k : ℚ)/100) (hj : cfg.short_trip_minimum = (j : ℚ)/100) :
    cfg.fare_minimum ≤ calc_fare cfg miles minutes ∧
    (miles < cfg.short_trip_miles_threshold →
      cfg.short_trip_minimum ≤ calc_fare cfg miles minutes) ∧
    calc_fare cfg miles minutes =
      round2 (if miles < cfg.short_trip_miles_threshold
              then max (max (cfg.fare_base + miles * cfg.fare_per_mile +
                             minutes * cfg.fare_per_min + cfg.fare_fee) cfg.fare_minimum)
                       cfg.short_trip_minimum
              else max (cfg.fare_base + miles * cfg.fare_per_mile +
                        minutes * cfg.fare_per_min + cfg.fare_fee) cfg.fare_minimum) := by
  refine ⟨?_, ?_, rfl⟩
  · rw [hk]
    unfold calc_fare
    apply round2_ge_of_cents
    rw [← hk]
    split_ifs with hlt
    · exact le_trans (le_max_right _ _) (le_max_left _ _)
    · exact le_max_right _ _
  · intro hlt
    rw [hj]
    unfold calc_fare
    apply round2_ge_of_cents
    rw [← hj]
    rw [if_pos hlt]
    exact le_max_right _ _

theorem c4_witness :
    defaultCfg.fare_minimum = ((800 : ℤ) : ℚ)/100 ∧
    defaultCfg.short_trip_minimum = ((1000 : ℤ) : ℚ)/100 ∧
    (defaultCfg.fare_minimum ≤ calc_fare defaultCfg 0 0 ∧
     ((0 : ℚ) < defaultCfg.short_trip_miles_threshold →
       defaultCfg.short_trip_minimum ≤ calc_fare defaultCfg 0 0) ∧
     calc_fare defaultCfg 0 0 =
       round2 (if (0 : ℚ) < defaultCfg.short_trip_miles_threshold
               then max (max (defaultCfg.fare_base + 0 * defaultCfg.fare_per_mile +
                              0 * defaultCfg.fare_per_min + defaultCfg.fare_fee)
                             defaultCfg.fare_minimum)
                        defaultCfg.short_trip_minimum
               else max (defaultCfg.fare_base + 0 * defaultCfg.fare_per_mile +
                         0 * defaultCfg.fare_per_min + defaultCfg.fare_fee)
                        defaultCfg.fare_minimum)) :=
  ⟨by norm_num [defaultCfg], by norm_num [defaultCfg],
   c4_fare_floors defaultCfg 0 0 800 1000 (by norm_num [defaultCfg])
     (by norm_num [defaultCfg])⟩

/-- Sample geocode results for the end-to-end scenario (coordinates are
irrelevant to the computation). -/
def sampleDep : GeoPoint := ⟨"100 Main St, Miami, FL", -8019/100, 2577/100⟩

def sampleDest : GeoPoint := ⟨"200 Ocean Dr, Miami, FL", -8013/100, 2578/100⟩

/-- C6 counterexample: with a 3000 m / 600 s route the computed fare is
12.66, not the claimed 10.00 — the spec's arithmetic
(3 + 1.86·2.5 + 10·0.4 + 1 ≈ 12.66) exceeds both floors, so the
short-trip minimum does not determine the price. -/
theorem dropoff_eval :
    handle_await_dropoff (some sampleDep) (some sampleDest) (some (3000, 600)) =
      DropoffResult.created (150000/80467) 10 (1266/100) Status.await_when := by
  have hmiles : ((3000 : ℕ) : ℚ) / (160934/100) = 150000/80467 := by norm_num
  have hmin : ((600 : ℕ) : ℚ) / 60 = 10 := by norm_num
  have hfare : calc_fare defaultCfg (150000/80467) 10 = 1266/100 := by
    simp only [calc_fare, defaultCfg]
    rw [if_pos (by norm_num : (150000/80467 : ℚ) < 5)]
    rw [max_eq_left
      (by norm_num : (8 : ℚ) ≤ 3 + 150000/80467 * (5/2) + 10 * (2/5) + 1)]
    rw [max_eq_left
      (by norm_num : (10 : ℚ) ≤ 3 + 150000/80467 * (5/2) + 10 * (2/5) + 1)]
    rw [show (3 : ℚ) + 150000/80467 * (5/2) + 10 * (2/5) + 1 = 1018736/80467 by norm_num]
    unfold round2 roundHalfEven
    rw [floorq ((1018736/80467 : ℚ) * 100) 1266 (by norm_num) (by norm_num)]
    rw [if_pos (by norm_num)]
    norm_num
  simp only [handle_await_dropoff]
  rw [if_neg (by norm_num : ¬((3000 : ℕ) = 0 ∨ (600 : ℕ) = 0))]
  rw [hmiles, hmin, hfare]

theorem c6_counterexample :
    createdFare (handle_await_dropoff (some sampleDep) (some sampleDest) (some (3000, 600))) =
      some (1266/100) ∧ ((1266 : ℚ)/100 ≠ 10) := by
  rw [dropoff_eval]
  refine ⟨rfl, by norm_num⟩

/-- C6 amended: in the end-to-end scenario (both addresses geocode, route
3000 m / 600 s) the computed miles is 3000/1609.34 ≈ 1.86, the minutes is
10, the fare is 12.66 (the formula exceeds both the 8.00 minimum and the
10.00 short-trip minimum), and the trip is created with status
`await_when`. -/
theorem c6_end_to_end :
    handle_await_dropoff (some sampleDep) (some sampleDest) (some (3000, 600)) =
      DropoffResult.created (150000/80467) 10 (1266/100) Status.await_when ∧
    (186 : ℚ)/100 - 1/100 < 150000/80467 ∧ (150000 : ℚ)/80467 < 186/100 + 1/100 :=
  ⟨dropoff_eval, by norm_num, by norm_num⟩

/-- Six stored trips for one user; the newest (`created_at` 700) has the
lexicographically smallest random trip id. -/
def tripsSix : List UserTrip :=
  [⟨"b1", 600⟩, ⟨"c2", 500⟩, ⟨"d3", 400⟩, ⟨"e4", 300⟩, ⟨"f5", 200⟩, ⟨"a0", 700⟩]

/-- C5: the listing truncates to five, but orders by the random trip id
(the DynamoDB sort key), not by creation time: on `tripsSix` it returns
the five oldest trips, oldest first, and omits the most recent trip
entirely. -/
theorem c5_listing_by_trip_id :
    list_recent_trips tripsSix =
      [⟨"f5", 200⟩, ⟨"e4", 300⟩, ⟨"d3", 400⟩, ⟨"c2", 500⟩, ⟨"b1", 600⟩] ∧
    (list_recent_trips tripsSix).map UserTrip.created_at = [200, 300, 400, 500, 600] ∧
    UserTrip.mk "a0" 700 ∉ list_recent_trips tripsSix := by
  refine ⟨by decide, by decide, by decide⟩

/-! ## Store update lemmas -/

theorem meta_set_trip_status_ne (s : Store) (tid uid : String) (st : Status) (t : String)
    (h : t ≠ tid) : (set_trip_status s tid uid st).meta t = s.meta t := by
  simp [set_trip_status, updateUserTripStatus, updateMetaStatus, h]

theorem meta_set_trip_status_eq (s : Store) (tid uid : String) (st : Status) :
    (set_trip_status s tid uid st).meta tid = (s.meta tid).map (fun m => { m with status := st }) := by
  simp [set_trip_status, updateUserTripStatus, updateMetaStatus]

theorem meta_set_trip_driver_ne (s : Store) (tid did dname dcar : String) (t : String)
    (h : t ≠ tid) : (set_trip_driver s tid did dname dcar).meta t = s.meta t := by
  simp [set_trip_driver, h]

/-! ## Concrete fixtures -/

def emptyStore : Store := ⟨fun _ => none, fun _ _ => none, fun _ => none⟩

def profs0 : String → Option (String × String) :=
  fun d => if d = "d9" then some ("Alex", "Sienna") else none

/-- A trip already declined (time and phone set, no driver). -/
def trip0 : TripMeta :=
  ⟨"u1", "u1", Status.declined, some "2026-03-01 10:00", some "+18505551234", none, none, none⟩

def store0 : Store := ⟨fun t => if t = "t1" then some trip0 else none, fun _ _ => none, fun _ => none⟩

/-- A trip already accepted by driver d1. -/
def tripA : TripMeta :=
  ⟨"u1", "u1", Status.accepted, some "2026-03-01 10:00", some "+18505551234",
   some "d1", some "Alex", some "Sienna"⟩

def storeA : Store := ⟨fun t => if t = "t1" then some tripA else none, fun _ _ => none, fun _ => none⟩

/-- A fully prepared trip still in `await_when` (time and phone set). -/
def tripB : TripMeta :=
  ⟨"u1", "u1", Status.await_when, some "2026-03-01 10:00", some "+18505551234", none, none, none⟩

def storeB : Store := ⟨fun t => if t = "t1" then some tripB else none, fun _ _ => none, fun _ => none⟩

/-! ## C10: accept on a missing META record -/

/-- C10: handling `accept(trip_id, driver_id)` when the canonical META
record does not exist performs no store mutation at all — no status
change, no driver fields, no session change — and only edits the tapping
driver's message to report the ride was not found, returning the
standard success response. -/
theorem c10_accept_missing_meta (profiles : String → Option (String × String))
    (tid drv : String) (s : Store) (h : s.meta tid = none) :
    handleAccept profiles tid drv s = ⟨s, [Action.editNotFound tid], Resp.ok⟩ := by
  simp only [handleAccept, h]

theorem c10_witness :
    handleAccept profs0 "zz" "d9" emptyStore =
      ⟨emptyStore, [Action.editNotFound "zz"], Resp.ok⟩ :=
  c10_accept_missing_meta profs0 "zz" "d9" emptyStore rfl

/-! ## C3: confirm idempotency -/

/-- C3: if a trip's status is already pending/accepted/declined, the
confirm handler performs no store mutation and no driver fan-out, only an
informational edit stating the current status; consequently, confirming a
prepared `await_when` trip twice triggers the driver fan-out exactly once
(once on the first call, zero times on the second). -/
theorem c3_confirm_idempotent (s : Store) (tid : String) (m : TripMeta)
    (hm : s.meta tid = some m) :
    (m.status = Status.pending ∨ m.status = Status.accepted ∨ m.status = Status.declined →
      handleConfirm tid s = ⟨s, [Action.editAlreadyStatus tid m.status], Resp.ok⟩) ∧
    (m.status = Status.await_when → m.desired_time_text ≠ none → m.passenger_phone ≠ none →
      fanoutCount (handleConfirm tid s) = 1 ∧
      fanoutCount (handleConfirm tid (handleConfirm tid s).store) = 0) := by
  constructor
  · intro hst
    simp only [handleConfirm, hm]
    rw [if_pos hst]
  · intro hst htime hphone
    have hnot : ¬(m.status = Status.pending ∨ m.status = Status.accepted ∨
        m.status = Status.declined) := by
      rw [hst]
      simp
    have hfirst : handleConfirm tid s =
        ⟨set_trip_status s tid m.user_id Status.pending,
         [Action.editConfirmSent tid, Action.fanout tid], Resp.ok⟩ := by
      simp only [handleConfirm, hm]
      rw [if_neg hnot, if_neg htime, if_neg hphone]
    constructor
    · rw [hfirst]
      rfl
    · rw [hfirst]
      have hm2 : (set_trip_status s tid m.user_id Status.pending).meta tid =
          some { m with status := Status.pending } := by
        rw [meta_set_trip_status_eq, hm]
        rfl
      simp only [handleConfirm, hm2, true_or, if_true]
      rfl

theorem c3_witness :
    fanoutCount (handleConfirm "t1" storeB) = 1 ∧
    fanoutCount (handleConfirm "t1" (handleConfirm "t1" storeB).store) = 0 :=
  (c3_confirm_idempotent storeB "t1" tripB rfl).2 rfl (by decide) (by decide)

/-! ## C2: status monotonicity -/

/-- C2 counterexample: on a trip whose status is already `declined`, a
subsequent accept event moves the status to `accepted` — the claimed
terminality of `declined` fails on the code (the accept branch only
guards against status `accepted`). -/
theorem c2_counterexample :
    (store0.meta "t1").map TripMeta.status = some Status.declined ∧
    ((runEvents profs0 [Ev.accept "t1" "d9"] store0).meta "t1").map TripMeta.status =
      some Status.accepted := by
  exact ⟨rfl, rfl⟩

theorem handleEv_preserves_accepted (profiles : String → Option (String × String))
    (e : Ev) (s : Store) (tid : String) (m : TripMeta)
    (hm : s.meta tid = some m) (hacc : m.status = Status.accepted) :
    (handleEv profiles e s).meta tid = some m := by
  cases e with
  | confirm t =>
    simp only [handleEv]
    rcases hmt : s.meta t with _ | m2
    · simp only [handleConfirm, hmt]
      exact hm
    · simp only [handleConfirm, hmt]
      by_cases ht : t = tid
      · subst ht
        rw [hm] at hmt
        injection hmt with hmm
        subst hmm
        rw [if_pos (Or.inr (Or.inl hacc))]
        exact hm
      · split_ifs
        · exact hm
        · exact hm
        · exact hm
        · rw [meta_set_trip_status_ne _ _ _ _ _ (Ne.symm ht)]
          exact hm
  | accept t d =>
    simp only [handleEv]
    rcases hmt : s.meta t with _ | m2
    · simp only [handleAccept, hmt]
      exact hm
    · simp only [handleAccept, hmt]
      by_cases ht : t = tid
      · subst ht
        rw [hm] at hmt
        injection hmt with hmm
        subst hmm
        rw [if_pos hacc]
        exact hm
      · split_ifs
        · exact hm
        · rw [meta_set_trip_status_ne _ _ _ _ _ (Ne.symm ht),
              meta_set_trip_driver_ne _ _ _ _ _ _ (Ne.symm ht)]
          exact hm
  | decline t d =>
    simp only [handleEv]
    rcases hmt : s.meta t with _ | m2
    · simp only [handleDecline, hmt]
      exact hm
    · simp only [handleDecline, hmt]
      by_cases ht : t = tid
      · subst ht
        rw [hm] at hmt
        injection hmt with hmm
        subst hmm
        rw [if_neg (by rw [hacc]; simp)]
        exact hm
      · split_ifs
        · rw [meta_set_trip_status_ne _ _ _ _ _ (Ne.symm ht)]
          exact hm
        · exact hm

/-- C2 amended: once a trip is `accepted`, no subsequent confirm, accept,
or decline event changes its META record at all (status and driver fields
included); a `declined` trip is left unchanged by confirm and decline
events — but, per the counterexample, an accept event can still move a
declined trip to `accepted`. -/
theorem c2_status_terminal (profiles : String → Option (String × String))
    (s : Store) (tid : String) (m : TripMeta) (hm : s.meta tid = some m) :
    (m.status = Status.accepted →
      ∀ evs : List Ev, (runEvents profiles evs s).meta tid = some m) ∧
    (m.status = Status.declined → ∀ drv : String,
      (handleConfirm tid s).store = s ∧ (handleDecline tid drv s).store = s) := by
  constructor
  · intro hacc evs
    induction evs generalizing s m with
    | nil => exact hm
    | cons e rest ih =>
      have h1 := handleEv_preserves_accepted profiles e s tid m hm hacc
      simpa [runEvents, List.foldl] using ih (handleEv profiles e s) m h1 hacc
  · intro hdec drv
    constructor
    · simp only [handleConfirm, hm]
      rw [if_pos (Or.inr (Or.inr hdec))]
    · simp only [handleDecline, hm]
      rw [if_neg (by rw [hdec]; simp)]

theorem c2_witness :
    (runEvents profs0 [Ev.confirm "t1", Ev.decline "t1" "d9", Ev.accept "t1" "d9"]
      storeA).meta "t1" = some tripA :=
  (c2_status_terminal profs0 storeA "t1" tripA rfl).1 rfl
    [Ev.confirm "t1", Ev.decline "t1" "d9", Ev.accept "t1" "d9"]

/-! ## C1: the two-driver accept race -/

/-- A trip in `pending`, as after confirm, awaiting drivers. -/
def tripP : TripMeta :=
  ⟨"u1", "u1", Status.pending, some "2026-03-01 10:00", some "+18505551234", none, none, none⟩

def storeP : Store := ⟨fun t => if t = "t1" then some tripP else none, fun _ _ => none, fun _ => none⟩

def profs1 : String → Option (String × String) :=
  fun d => if d = "d1" then some ("Alex", "Sienna")
           else if d = "d2" then some ("Boris", "Tesla") else none

/-- The interleaving in which both drivers' `get_trip_meta` reads execute
before either driver's writes. -/
def racySched : List Bool := [true, false, true, true, true, false, false, false]

/-- C1 (violated by the code): under the interleaving `racySched` of two
accept invocations on a `pending` trip, BOTH invocations perform writes
to the trip records and NEITHER observes status already `accepted` — the
read-check-then-write sequence carries no condition on the status update
(`set_trip_status` is an unconditional `update_item`), so the losing
driver also mutates the records and reports acceptance.  The final record
holds the second driver's identity. -/
theorem c1_accept_race_unguarded :
    (runSched profs1 "t1" "d1" "d2" racySched (initProc, initProc, storeP)).1.wrote = true ∧
    (runSched profs1 "t1" "d1" "d2" racySched (initProc, initProc, storeP)).2.1.wrote = true ∧
    (runSched profs1 "t1" "d1" "d2" racySched (initProc, initProc, storeP)).1.sawTaken = false ∧
    (runSched profs1 "t1" "d1" "d2" racySched (initProc, initProc, storeP)).2.1.sawTaken = false ∧
    ((runSched profs1 "t1" "d1" "d2" racySched (initProc, initProc, storeP)).2.2.meta "t1").map
      TripMeta.status = some Status.accepted ∧
    ((runSched profs1 "t1" "d1" "d2" racySched (initProc, initProc, storeP)).2.2.meta "t1").bind
      TripMeta.driver_name = some "Boris" := by
  exact ⟨rfl, rfl, rfl, rfl, rfl, rfl⟩

/-! ## C9: time-slot generation -/

theorem slotLoop_const (ofs : ℤ → ℤ) (c endw : ℤ) :
    ∀ (n fuel : ℕ) (w : ℤ), n ≤ fuel →
      (∀ v : ℤ, w ≤ v → v ≤ w + 30 * n → ofs v = c) →
      w + 30 * (n : ℤ) - 30 ≤ endw → endw < w + 30 * (n : ℤ) →
      slotLoop ofs (endw - c) fuel w =
        (List.range n).map (fun (i : ℕ) => (w + 30 * (i : ℤ) - c) * 60) := by
  intro n
  induction n with
  | zero =>
    intro fuel w _ hofs h1 h2
    have hw : ofs w = c := hofs w le_rfl (by norm_num)
    cases fuel with
    | zero => rfl
    | succ f =>
      simp only [slotLoop]
      rw [if_neg (by rw [hw]; push_cast at h2; omega)]
      simp
  | succ n ih =>
    intro fuel w hfuel hofs h1 h2
    cases fuel with
    | zero => omega
    | succ f =>
      have hw : ofs w = c := hofs w le_rfl (by push_cast; omega)
      have hcond : w - ofs w ≤ endw - c := by
        rw [hw]
        push_cast at h1
        omega
      simp only [slotLoop]
      rw [if_pos hcond, hw]
      rw [ih f (w + 30) (by omega)
        (fun v hv1 hv2 => hofs v (by omega) (by push_cast at hv2 ⊢; omega))
        (by push_cast at h1 ⊢; omega) (by push_cast at h2 ⊢; omega)]
      rw [List.range_succ_eq_map]
      simp only [List.map_cons, List.map_map, Nat.cast_zero]
      congr 1
      · ring
      · apply List.map_congr_left
        intro i _
        simp only [Function.comp_apply]
        push_cast
        ring

theorem epochsOf_map_slot (f : ℕ → ℤ) (l : List ℕ) :
    epochsOf (l.map (fun i => TimeButton.slot (f i))) = l.map f := by
  induction l with
  | nil => rfl
  | cons a as ih => simp [epochsOf, List.filterMap] at ih ⊢; exact ih

/-- C9: for any day whose UTC offset is constant over the generated
window (true of America/Chicago on every date: DST transitions occur at
02:00, before the 6:00-23:59 window), the buttons are exactly the 36
slots 6:00, 6:30, …, 23:30 — covering 6:00 AM through 11:59 PM in
30-minute steps — their epochs are consecutive and exactly 1800 seconds
(30 minutes) apart, and the button list is never empty (the placeholder
branch would supply a control if no slot were generated). -/
theorem c9_time_slots (ofs : ℤ → ℤ) (c dayStart : ℤ)
    (h : ∀ v : ℤ, dayStart + 360 ≤ v → v ≤ dayStart + 1440 → ofs v = c) :
    build_time_buttons ofs dayStart =
      (List.range 36).map (fun (i : ℕ) => TimeButton.slot ((dayStart + 360 + 30 * (i : ℤ) - c) * 60)) ∧
    List.Chain' (fun a b => b = a + 1800) (epochsOf (build_time_buttons ofs dayStart)) ∧
    build_time_buttons ofs dayStart ≠ [] := by
  have hrows : slotLoop ofs (dayStart + 1439 - ofs (dayStart + 1439)) 1000 (dayStart + 360) =
      (List.range 36).map (fun (i : ℕ) => (dayStart + 360 + 30 * (i : ℤ) - c) * 60) := by
    rw [h (dayStart + 1439) (by omega) (by omega)]
    exact slotLoop_const ofs c (dayStart + 1439) 36 1000 (dayStart + 360) (by omega)
      (fun v hv1 hv2 => h v hv1 (by push_cast at hv2; omega))
      (by push_cast; omega) (by push_cast; omega)
  have hne : (List.range 36).map (fun (i : ℕ) => (dayStart + 360 + 30 * (i : ℤ) - c) * 60) ≠ [] := by
    simp [List.range_succ]
  have hbtn : build_time_buttons ofs dayStart =
      (List.range 36).map (fun (i : ℕ) => TimeButton.slot ((dayStart + 360 + 30 * (i : ℤ) - c) * 60)) := by
    simp only [build_time_buttons, hrows]
    rw [if_neg hne]
    rw [List.map_map]
    rfl
  refine ⟨hbtn, ?_, ?_⟩
  · rw [hbtn, epochsOf_map_slot]
    rw [show (36 : ℕ) = 35 + 1 from rfl, List.chain'_map, List.chain'_range_succ]
    intro i hi
    push_cast
    ring
  · rw [hbtn]
    intro hcon
    exact hne (by simpa using congrArg (List.map (fun b => (0 : ℤ))) hcon)

theorem c9_witness :
    build_time_buttons (fun _ => -300) 0 =
      (List.range 36).map (fun (i : ℕ) => TimeButton.slot ((0 + 360 + 30 * (i : ℤ) - (-300)) * 60)) :=
  (c9_time_slots (fun _ => -300) (-300) 0 (fun _ _ _ => rfl)).1

end RideBot
